import Mathlib

/-!
Verification of the dual-sink logging facility in `src/utils/setlogger.py`.

The module defines:
  * `LOG_COLORS` / `RESET_COLOR`: ANSI color codes per severity name;
  * `ColorFormatter.format`: wraps the plain-formatted line in the
    severity's color and the reset code;
  * `setup_logger(log_name, level=DEBUG)`: an idempotent factory that
    registers a named logger with a file sink (plain formatter, daily
    file under `./logs/`) and a console sink (color formatter).

We embed the data model shallowly: the process-wide logger registry,
the file system and the set of opened file handles become explicit
state threaded through `setup_logger`; Python's `logging` dispatch
(`Logger.setLevel`, handler thresholds, `FileHandler` semantics with
`delay=False`, the truthiness guard `if not logger.handlers`) is
translated directly.
-/

set_option maxRecDepth 4000

namespace SetLogger

/-! ### Decimal rendering (Python `str`/f-string formatting of ints) -/

/-- The decimal digit character for `n % 10`-style values below ten. -/
def digitChar : Nat → Char
  | 0 => '0' | 1 => '1' | 2 => '2' | 3 => '3' | 4 => '4'
  | 5 => '5' | 6 => '6' | 7 => '7' | 8 => '8' | _ => '9'

/-- Fuel-driven digit extraction: with fuel above `n`, produces the
decimal digits of `n`, most significant first. -/
def natDigitsAux : Nat → Nat → List Char
  | 0, _ => []
  | fuel + 1, n =>
      if n < 10 then [digitChar n]
      else natDigitsAux fuel (n / 10) ++ [digitChar (n % 10)]

/-- Decimal digit list of a natural number, most significant first
(the rendering `str(n)` / `f"{n}"` produces in Python). -/
def natDigits (n : Nat) : List Char := natDigitsAux (n + 1) n

/-- `str(n)` as a Lean string. -/
def natStr (n : Nat) : String := ⟨natDigits n⟩

/-- Python's `f"{n:02d}"`: zero-pad to two digits. -/
def pad2 (n : Nat) : String :=
  if n < 10 then ⟨'0' :: natDigits n⟩ else ⟨natDigits n⟩

/-! ### Severity levels (the `logging` module constants) -/

def DEBUG : Nat := 10
def INFO : Nat := 20
def WARNING : Nat := 30
def ERROR : Nat := 40
def CRITICAL : Nat := 50

/-! ### ANSI colors: `LOG_COLORS` and `RESET_COLOR` -/

/-- `LOG_COLORS` dict from the source, severity name to ANSI code. -/
def LOG_COLORS : List (String × String) :=
  [("DEBUG", "\x1b[37m"),
   ("INFO", "\x1b[36m"),
   ("WARNING", "\x1b[33m"),
   ("ERROR", "\x1b[31m"),
   ("CRITICAL", "\x1b[41m")]

/-- `RESET_COLOR = "\033[0m"`. -/
def RESET_COLOR : String := "\x1b[0m"

/-- `dict.get(key, default)` on an association list. -/
def dictGet (d : List (String × String)) (key default : String) : String :=
  match d.find? (fun p => p.1 = key) with
  | some p => p.2
  | none => default

/-! ### Log records and formatters -/

/-- A wall-clock timestamp as broken-down local time. -/
structure DateTime where
  year : Nat
  month : Nat
  day : Nat
  hour : Nat
  minute : Nat
  second : Nat
deriving DecidableEq, Repr

/-- `time.strftime("%Y-%m-%d %H:%M:%S", t)`: the `asctime` rendering
used by both formatters (`datefmt="%Y-%m-%d %H:%M:%S"`). -/
def asctime (t : DateTime) : String :=
  natStr t.year ++ "-" ++ pad2 t.month ++ "-" ++ pad2 t.day ++ " " ++
    pad2 t.hour ++ ":" ++ pad2 t.minute ++ ":" ++ pad2 t.second

/-- A `logging.LogRecord`: creation time, logger name, severity name,
severity number and rendered message. -/
structure LogRecord where
  created : DateTime
  name : String
  levelname : String
  levelno : Nat
  msg : String
deriving DecidableEq, Repr

/-- The plain formatter built from
`'%(asctime)s - %(name)s - %(levelname)s - %(message)s'`. -/
def plainFormat (r : LogRecord) : String :=
  asctime r.created ++ " - " ++ r.name ++ " - " ++ r.levelname ++ " - " ++ r.msg

namespace ColorFormatter

/-- `ColorFormatter.format`: look up the color for `record.levelname`
(falling back to `RESET_COLOR`), format via the parent class, and
return `f"{log_color}{message}{RESET_COLOR}"`. -/
def format (r : LogRecord) : String :=
  let log_color := dictGet LOG_COLORS r.levelname RESET_COLOR
  let message := plainFormat r
  log_color ++ message ++ RESET_COLOR

end ColorFormatter

end SetLogger

namespace SetLogger

/-! ### Handlers, loggers and the world state -/

/-- A formatter attached to a handler: the plain `logging.Formatter`,
the `ColorFormatter`, or some formatter foreign to this module. -/
inductive Fmt where
  | plain
  | color
  | foreign (id : Nat)
deriving DecidableEq, Repr

/-- A handler's destination: a `FileHandler` target (filename, mode,
encoding), the console stream of `StreamHandler()`, or a destination
foreign to this module. -/
inductive Sink where
  | file (filename mode encoding : String)
  | console
  | foreign (id : Nat)
deriving DecidableEq, Repr

/-- A `logging.Handler`: destination, threshold level and formatter. -/
structure Handler where
  sink : Sink
  level : Nat
  fmt : Fmt
deriving DecidableEq, Repr

/-- A registry entry (`logging.Logger`): its own level and the list of
attached handlers. `logging.getLogger` creates entries with level
`NOTSET = 0` and no handlers. -/
structure LoggerState where
  level : Nat
  handlers : List Handler
deriving DecidableEq, Repr

/-- The entry `logging.getLogger` creates for an unseen name. -/
def freshLogger : LoggerState := ⟨0, []⟩

/-- A calendar date, as returned by `datetime.date.today()`. -/
structure Date where
  year : Nat
  month : Nat
  day : Nat
deriving DecidableEq, Repr

/-- The process-wide state `setup_logger` reads and writes: the logger
registry, the file system (path to contents, `none` when absent, plus
the set of directories), and the trace of file-handle open events. -/
structure World where
  registry : List (String × LoggerState)
  files : List (String × String)
  dirs : List String
  openEvents : List String
deriving DecidableEq, Repr

/-- Dictionary lookup on an association list (first binding wins). -/
def lookupAssoc {α : Type} : List (String × α) → String → Option α
  | [], _ => none
  | p :: rest, k => if p.1 = k then some p.2 else lookupAssoc rest k

/-- Dictionary update on an association list: replace the binding for
`k`, or append a new one. -/
def storeAssoc {α : Type} : List (String × α) → String → α → List (String × α)
  | [], k, v => [(k, v)]
  | p :: rest, k, v =>
      if p.1 = k then (k, v) :: rest else p :: storeAssoc rest k v

/-- Registry lookup: the entry for `name`, or the fresh entry
`getLogger` would create. -/
def lookupLogger (w : World) (name : String) : LoggerState :=
  (lookupAssoc w.registry name).getD freshLogger

/-- File-system lookup: contents of `path`, `none` when absent. -/
def lookupFile (fs : List (String × String)) (path : String) : Option String :=
  lookupAssoc fs path

/-- Opening a file in append mode creates it empty when absent and
leaves its contents alone otherwise. -/
def createIfAbsent : List (String × String) → String → List (String × String)
  | [], path => [(path, "")]
  | p :: rest, path =>
      if p.1 = path then p :: rest else p :: createIfAbsent rest path

/-- Append `line` to the file at `path` (creating it when absent, as an
append-mode handle does). -/
def appendFile : List (String × String) → String → String →
    List (String × String)
  | [], path, line => [(path, line)]
  | p :: rest, path, line =>
      if p.1 = path then (p.1, p.2 ++ line) :: rest
      else p :: appendFile rest path line

/-- `os.makedirs(d, exist_ok=True)`. -/
def makedirs (dirs : List String) (d : String) : List String :=
  if d ∈ dirs then dirs else dirs ++ [d]

/-- The daily log file path computed in `setup_logger`:
`f"./logs/{today.month:02d}-{today.day:02d}-{today.year}.log"`. -/
def logFilename (today : Date) : String :=
  "./logs/" ++ pad2 today.month ++ "-" ++ pad2 today.day ++ "-" ++
    natStr today.year ++ ".log"

/-- `setup_logger(log_name, level=logging.DEBUG)`, with the current
date and the world state made explicit.  Mirrors the source line by
line: make the `./logs/` directory; compute the day's filename; fetch
or create the registry entry; `setLevel(DEBUG)` on it; construct the
`FileHandler` (which, with the default `delay=False`, opens the file
now — recorded as an open event — creating it if absent) at `level`
with the plain formatter; construct the `StreamHandler` at `level` with
the color formatter; attach both only if the entry has no handlers;
return the new world and the entry. -/
def setup_logger (w : World) (today : Date) (log_name : String)
    (level : Nat := DEBUG) : World × LoggerState :=
  let dirs := makedirs w.dirs "./logs/"
  let filename := logFilename today
  let logger0 := lookupLogger w log_name
  let logger1 : LoggerState := { logger0 with level := DEBUG }
  let files := createIfAbsent w.files filename
  let openEvents := w.openEvents ++ [filename]
  let file_handler : Handler := ⟨Sink.file filename "a" "utf-8", level, Fmt.plain⟩
  let stream_handler : Handler := ⟨Sink.console, level, Fmt.color⟩
  let logger2 :=
    if logger1.handlers.isEmpty then
      { logger1 with handlers := [file_handler, stream_handler] }
    else logger1
  let w' : World := { registry := storeAssoc w.registry log_name logger2,
                      files := files, dirs := dirs, openEvents := openEvents }
  (w', logger2)

/-! ### Dispatching a record (a `logger.info(...)`-style call) -/

/-- What a handler writes for a record: its formatter's rendering plus
the terminator `"\n"`. A foreign formatter is modelled as rendering the
bare message (the default `logging.Formatter()` behaviour). -/
def renderWith (f : Fmt) (r : LogRecord) : String :=
  match f with
  | Fmt.plain => plainFormat r ++ "\n"
  | Fmt.color => ColorFormatter.format r ++ "\n"
  | Fmt.foreign _ => r.msg ++ "\n"

/-- `Handler.handle`: emit when the record passes the handler's
threshold. Returns the updated file system and console output. -/
def handleOne (h : Handler) (r : LogRecord)
    (fs : List (String × String)) (console : String) :
    List (String × String) × String :=
  if h.level ≤ r.levelno then
    match h.sink with
    | Sink.file fn _ _ => (appendFile fs fn (renderWith h.fmt r), console)
    | Sink.console => (fs, console ++ renderWith h.fmt r)
    | Sink.foreign _ => (fs, console)
  else (fs, console)

/-- `Logger.callHandlers`: pass the record to each handler in order. -/
def callHandlers (hs : List Handler) (r : LogRecord)
    (fs : List (String × String)) (console : String) :
    List (String × String) × String :=
  match hs with
  | [] => (fs, console)
  | h :: rest =>
      let p := handleOne h r fs console
      callHandlers rest r p.1 p.2

/-- A logging call on a logger: the record is dispatched to the
handlers only when it passes the logger's own level gate. -/
def logCall (st : LoggerState) (r : LogRecord)
    (fs : List (String × String)) (console : String) :
    List (String × String) × String :=
  if st.level ≤ r.levelno then callHandlers st.handlers r fs console
  else (fs, console)

/-- A sequence of `setup_logger` calls for one name, each with its own
current date and level argument. -/
def runCalls (w : World) (name : String) : List (Date × Nat) → World
  | [] => w
  | (d, l) :: rest => runCalls (setup_logger w d name l).1 name rest

/-- Number of attached file sinks. -/
def countFileSinks (hs : List Handler) : Nat :=
  hs.countP (fun h => match h.sink with | Sink.file _ _ _ => true | _ => false)

/-- Number of attached console sinks. -/
def countConsoleSinks (hs : List Handler) : Nat :=
  hs.countP (fun h => match h.sink with | Sink.console => true | _ => false)

/-- The registry entry `setup_logger` leaves behind, as a function of
the prior entry: level forced to `DEBUG`; the two sinks attached only
when no handler was present. -/
def setupEntry (st : LoggerState) (today : Date) (level : Nat) : LoggerState :=
  if st.handlers.isEmpty then
    ⟨DEBUG, [⟨Sink.file (logFilename today) "a" "utf-8", level, Fmt.plain⟩,
             ⟨Sink.console, level, Fmt.color⟩]⟩
  else ⟨DEBUG, st.handlers⟩

/-! ### Theorems: formatter claims -/

/-- C2: for every record whose severity is one of DEBUG, INFO, WARNING,
ERROR, CRITICAL, `ColorFormatter.format` returns exactly the severity's
ANSI color code, then the plain-formatted line, then the reset code. -/
theorem colorFormatter_format_known_levels (r : LogRecord) :
    (r.levelname = "DEBUG" →
      ColorFormatter.format r = "\x1b[37m" ++ plainFormat r ++ "\x1b[0m") ∧
    (r.levelname = "INFO" →
      ColorFormatter.format r = "\x1b[36m" ++ plainFormat r ++ "\x1b[0m") ∧
    (r.levelname = "WARNING" →
      ColorFormatter.format r = "\x1b[33m" ++ plainFormat r ++ "\x1b[0m") ∧
    (r.levelname = "ERROR" →
      ColorFormatter.format r = "\x1b[31m" ++ plainFormat r ++ "\x1b[0m") ∧
    (r.levelname = "CRITICAL" →
      ColorFormatter.format r = "\x1b[41m" ++ plainFormat r ++ "\x1b[0m") := by
  refine ⟨?_, ?_, ?_, ?_, ?_⟩ <;> intro h <;>
    simp [ColorFormatter.format, dictGet, LOG_COLORS, h, List.find?, RESET_COLOR]

/-- Witness for C2 at a concrete INFO record. -/
theorem colorFormatter_format_known_levels_witness :
    ColorFormatter.format
        ⟨⟨2024, 5, 7, 12, 0, 0⟩, "app", "INFO", 20, "hello"⟩
      = "\x1b[36m" ++
          plainFormat ⟨⟨2024, 5, 7, 12, 0, 0⟩, "app", "INFO", 20, "hello"⟩ ++
          "\x1b[0m" :=
  (colorFormatter_format_known_levels
      ⟨⟨2024, 5, 7, 12, 0, 0⟩, "app", "INFO", 20, "hello"⟩).2.1 rfl

/-- C3: for every record whose severity name is not one of the five
recognized severities, `ColorFormatter.format` does not fail and returns
the plain-formatted line wrapped with the reset code on both ends. -/
theorem colorFormatter_format_unknown_level (r : LogRecord)
    (h1 : r.levelname ≠ "DEBUG") (h2 : r.levelname ≠ "INFO")
    (h3 : r.levelname ≠ "WARNING") (h4 : r.levelname ≠ "ERROR")
    (h5 : r.levelname ≠ "CRITICAL") :
    ColorFormatter.format r = "\x1b[0m" ++ plainFormat r ++ "\x1b[0m" := by
  have e1 : ("DEBUG" = r.levelname) = False := by
    simp [iff_false]; exact fun h => h1 h.symm
  have e2 : ("INFO" = r.levelname) = False := by
    simp [iff_false]; exact fun h => h2 h.symm
  have e3 : ("WARNING" = r.levelname) = False := by
    simp [iff_false]; exact fun h => h3 h.symm
  have e4 : ("ERROR" = r.levelname) = False := by
    simp [iff_false]; exact fun h => h4 h.symm
  have e5 : ("CRITICAL" = r.levelname) = False := by
    simp [iff_false]; exact fun h => h5 h.symm
  simp [ColorFormatter.format, dictGet, LOG_COLORS, List.find?, RESET_COLOR,
    e1, e2, e3, e4, e5]

/-- Witness for C3 at a concrete record with severity name "TRACE". -/
theorem colorFormatter_format_unknown_level_witness :
    ColorFormatter.format
        ⟨⟨2024, 5, 7, 12, 0, 0⟩, "app", "TRACE", 5, "hello"⟩
      = "\x1b[0m" ++
          plainFormat ⟨⟨2024, 5, 7, 12, 0, 0⟩, "app", "TRACE", 5, "hello"⟩ ++
          "\x1b[0m" :=
  colorFormatter_format_unknown_level
    ⟨⟨2024, 5, 7, 12, 0, 0⟩, "app", "TRACE", 5, "hello"⟩
    (by decide) (by decide) (by decide) (by decide) (by decide)

/-! ### Structural lemmas about `setup_logger` and the registry -/

lemma setup_logger_eq (w : World) (d : Date) (n : String) (l : Nat) :
    setup_logger w d n l =
      ({ registry := storeAssoc w.registry n (setupEntry (lookupLogger w n) d l),
         files := createIfAbsent w.files (logFilename d),
         dirs := makedirs w.dirs "./logs/",
         openEvents := w.openEvents ++ [logFilename d] },
       setupEntry (lookupLogger w n) d l) := by
  unfold setup_logger setupEntry
  cases h : (lookupLogger w n).handlers.isEmpty <;> simp [h]

lemma lookupAssoc_storeAssoc_self {α : Type} (l : List (String × α))
    (k : String) (v : α) : lookupAssoc (storeAssoc l k v) k = some v := by
  induction l with
  | nil => simp [storeAssoc, lookupAssoc]
  | cons p rest ih =>
      by_cases h : p.1 = k <;> simp [storeAssoc, lookupAssoc, h, ih]

lemma lookupLogger_setup (w : World) (d : Date) (n : String) (l : Nat) :
    lookupLogger (setup_logger w d n l).1 n = setupEntry (lookupLogger w n) d l := by
  rw [setup_logger_eq]
  simp [lookupLogger, lookupAssoc_storeAssoc_self]

lemma snd_setup_eq_lookup (w : World) (d : Date) (n : String) (l : Nat) :
    (setup_logger w d n l).2 = lookupLogger (setup_logger w d n l).1 n := by
  rw [lookupLogger_setup, setup_logger_eq]

lemma lookupFile_createIfAbsent_self (fs : List (String × String)) (path : String) :
    lookupFile (createIfAbsent fs path) path
      = some ((lookupFile fs path).getD "") := by
  induction fs with
  | nil => simp [createIfAbsent, lookupFile, lookupAssoc]
  | cons p rest ih =>
      by_cases h : p.1 = path <;>
        simp [createIfAbsent, lookupFile, lookupAssoc, h] <;>
        simpa [lookupFile] using ih

lemma lookupFile_appendFile_self (fs : List (String × String)) (path line : String) :
    lookupFile (appendFile fs path line) path
      = some ((lookupFile fs path).getD "" ++ line) := by
  induction fs with
  | nil => simp [appendFile, lookupFile, lookupAssoc]
  | cons p rest ih =>
      by_cases h : p.1 = path <;>
        simp [appendFile, lookupFile, lookupAssoc, h] <;>
        simpa [lookupFile] using ih

lemma lookupFile_appendFile_other (fs : List (String × String))
    (path line q : String) (hq : q ≠ path) :
    lookupFile (appendFile fs path line) q = lookupFile fs q := by
  induction fs with
  | nil => simp [appendFile, lookupFile, lookupAssoc, Ne.symm hq]
  | cons p rest ih =>
      by_cases h : p.1 = path
      · simp [appendFile, lookupFile, lookupAssoc, h, Ne.symm hq]
      · by_cases h2 : p.1 = q
        · simp [appendFile, lookupFile, lookupAssoc, h, h2, hq]
        · simp only [appendFile, lookupFile, lookupAssoc, h, h2,
            if_false, if_neg h, if_neg h2]
          simpa [lookupFile] using ih

/-! ### Theorems: factory claims -/

/-- C6: for every name and every minLevel argument, the logger returned
by `setup_logger` has its own level set to DEBUG, regardless of the
minLevel argument. -/
theorem setup_logger_level_always_debug (w : World) (d : Date) (n : String)
    (l : Nat) : ((setup_logger w d n l).2).level = DEBUG := by
  rw [setup_logger_eq]
  unfold setupEntry
  cases h : (lookupLogger w n).handlers.isEmpty <;> simp [h]

/-- C5: on a name whose entry has no sinks attached, `setup_logger`
attaches exactly two sinks — a file sink on the day's file with the
plain formatter, append mode, UTF-8 encoding and threshold `l`, and a
console sink with the color formatter and threshold `l` — and the day's
file exists afterwards with its previous contents (empty when it was
absent). -/
theorem setup_logger_first_attach (w : World) (d : Date) (n : String) (l : Nat)
    (h : (lookupLogger w n).handlers = []) :
    ((setup_logger w d n l).2).handlers =
      [⟨Sink.file (logFilename d) "a" "utf-8", l, Fmt.plain⟩,
       ⟨Sink.console, l, Fmt.color⟩] ∧
    lookupFile (setup_logger w d n l).1.files (logFilename d)
      = some ((lookupFile w.files (logFilename d)).getD "") := by
  rw [setup_logger_eq]
  constructor
  · unfold setupEntry
    simp [h]
  · exact lookupFile_createIfAbsent_self w.files (logFilename d)

/-- Witness for C5: first call on an empty world. -/
theorem setup_logger_first_attach_witness :
    ((setup_logger ⟨[], [], [], []⟩ ⟨2024, 5, 7⟩ "app" 20).2).handlers =
      [⟨Sink.file (logFilename ⟨2024, 5, 7⟩) "a" "utf-8", 20, Fmt.plain⟩,
       ⟨Sink.console, 20, Fmt.color⟩] ∧
    lookupFile (setup_logger ⟨[], [], [], []⟩ ⟨2024, 5, 7⟩ "app" 20).1.files
        (logFilename ⟨2024, 5, 7⟩)
      = some ((lookupFile ([] : List (String × String))
          (logFilename ⟨2024, 5, 7⟩)).getD "") :=
  setup_logger_first_attach ⟨[], [], [], []⟩ ⟨2024, 5, 7⟩ "app" 20 (by decide)

/-- C9: a `setup_logger` call on a name whose logger already has sinks
attached leaves the existing handler list — thresholds, formatters and
target files included — exactly as it was. -/
theorem setup_logger_preserves_existing_sinks (w : World) (d : Date)
    (n : String) (l : Nat) (h : (lookupLogger w n).handlers ≠ []) :
    (lookupLogger (setup_logger w d n l).1 n).handlers
      = (lookupLogger w n).handlers := by
  rw [lookupLogger_setup]
  unfold setupEntry
  simp [List.isEmpty_iff, h]

/-- Witness for C9: second call with a different level on a logger
already configured at level 20. -/
theorem setup_logger_preserves_existing_sinks_witness :
    (lookupLogger
        (setup_logger
          (setup_logger ⟨[], [], [], []⟩ ⟨2024, 5, 7⟩ "app" 20).1
          ⟨2024, 5, 8⟩ "app" 40).1 "app").handlers
      = (lookupLogger
          (setup_logger ⟨[], [], [], []⟩ ⟨2024, 5, 7⟩ "app" 20).1 "app").handlers :=
  setup_logger_preserves_existing_sinks
    (setup_logger ⟨[], [], [], []⟩ ⟨2024, 5, 7⟩ "app" 20).1
    ⟨2024, 5, 8⟩ "app" 40 (by decide)

/-- C10: the attachment guard tests for the presence of any handler at
all: if the entry already holds at least one handler of any kind — a
foreign one included, with no file sink and no console sink present —
`setup_logger` attaches neither sink and leaves the handler list
unchanged. -/
theorem setup_logger_guard_any_handler (w : World) (d : Date) (n : String)
    (l : Nat) (h0 : Handler) (rest : List Handler)
    (h : (lookupLogger w n).handlers = h0 :: rest) :
    (lookupLogger (setup_logger w d n l).1 n).handlers = h0 :: rest ∧
    countFileSinks (lookupLogger (setup_logger w d n l).1 n).handlers
      = countFileSinks (h0 :: rest) ∧
    countConsoleSinks (lookupLogger (setup_logger w d n l).1 n).handlers
      = countConsoleSinks (h0 :: rest) := by
  have hne : (lookupLogger w n).handlers ≠ [] := by simp [h]
  have := setup_logger_preserves_existing_sinks w d n l hne
  rw [h] at this
  exact ⟨this, by rw [this], by rw [this]⟩

/-- Witness for C10: a logger holding one foreign handler keeps exactly
that handler after a `setup_logger` call. -/
theorem setup_logger_guard_any_handler_witness :
    (lookupLogger
        (setup_logger
          ⟨[("app", ⟨30, [⟨Sink.foreign 0, 0, Fmt.foreign 0⟩]⟩)], [], [], []⟩
          ⟨2024, 5, 7⟩ "app" 20).1 "app").handlers
      = [⟨Sink.foreign 0, 0, Fmt.foreign 0⟩] ∧
    countFileSinks
        (lookupLogger
          (setup_logger
            ⟨[("app", ⟨30, [⟨Sink.foreign 0, 0, Fmt.foreign 0⟩]⟩)], [], [], []⟩
            ⟨2024, 5, 7⟩ "app" 20).1 "app").handlers
      = countFileSinks [⟨Sink.foreign 0, 0, Fmt.foreign 0⟩] ∧
    countConsoleSinks
        (lookupLogger
          (setup_logger
            ⟨[("app", ⟨30, [⟨Sink.foreign 0, 0, Fmt.foreign 0⟩]⟩)], [], [], []⟩
            ⟨2024, 5, 7⟩ "app" 20).1 "app").handlers
      = countConsoleSinks [⟨Sink.foreign 0, 0, Fmt.foreign 0⟩] :=
  setup_logger_guard_any_handler
    ⟨[("app", ⟨30, [⟨Sink.foreign 0, 0, Fmt.foreign 0⟩]⟩)], [], [], []⟩
    ⟨2024, 5, 7⟩ "app" 20 ⟨Sink.foreign 0, 0, Fmt.foreign 0⟩ [] (by decide)

/-- C8 counterexample: in the world left by a first `setup_logger`
call, the logger "app" already has its sinks attached, yet a second
call opens one more file handle (the `FileHandler` is constructed —
and with `delay=False` opens the file — before the attachment guard
runs). -/
theorem setup_logger_reopens_on_second_call :
    (lookupLogger (setup_logger ⟨[], [], [], []⟩ ⟨2024, 5, 7⟩ "app" 10).1
        "app").handlers ≠ [] ∧
    ((setup_logger (setup_logger ⟨[], [], [], []⟩ ⟨2024, 5, 7⟩ "app" 10).1
        ⟨2024, 5, 7⟩ "app" 10).1).openEvents.length
      = ((setup_logger ⟨[], [], [], []⟩ ⟨2024, 5, 7⟩ "app" 10).1).openEvents.length
          + 1 := by
  constructor <;> decide

/-- C8 amended: every `setup_logger` call opens exactly one file handle
for the day's log file when it constructs the file handler, whether or
not the sinks end up attached; an already-configured logger keeps the
handler (and thus the handle) attached at first construction. -/
theorem setup_logger_opens_handle_every_call (w : World) (d : Date)
    (n : String) (l : Nat) :
    (setup_logger w d n l).1.openEvents = w.openEvents ++ [logFilename d] ∧
    ((lookupLogger w n).handlers ≠ [] →
      (lookupLogger (setup_logger w d n l).1 n).handlers
        = (lookupLogger w n).handlers) := by
  constructor
  · rw [setup_logger_eq]
  · intro h
    rw [lookupLogger_setup]
    unfold setupEntry
    simp [List.isEmpty_iff, h]

lemma counts_setupEntry (st : LoggerState) (d : Date) (l : Nat)
    (hf : countFileSinks st.handlers ≤ 1)
    (hc : countConsoleSinks st.handlers ≤ 1) :
    countFileSinks (setupEntry st d l).handlers ≤ 1 ∧
    countConsoleSinks (setupEntry st d l).handlers ≤ 1 := by
  unfold setupEntry
  cases h : st.handlers.isEmpty
  · simpa [h] using ⟨hf, hc⟩
  · simp [h, countFileSinks, countConsoleSinks, List.countP, List.countP.go]

/-- C1: starting from a state where the named entry holds at most one
file sink and at most one console sink (in particular, a fresh name),
any sequence of `setup_logger` calls keeps each sink type attached at
most once; every further call returns exactly the registry entry stored
under the name; and once sinks are attached a further call leaves the
handler list unchanged. -/
theorem setup_logger_idempotent_sinks (w : World) (name : String)
    (calls : List (Date × Nat))
    (hf : countFileSinks (lookupLogger w name).handlers ≤ 1)
    (hc : countConsoleSinks (lookupLogger w name).handlers ≤ 1) :
    (∀ d l, (setup_logger (runCalls w name calls) d name l).2
        = lookupLogger (setup_logger (runCalls w name calls) d name l).1 name) ∧
    countFileSinks (lookupLogger (runCalls w name calls) name).handlers ≤ 1 ∧
    countConsoleSinks (lookupLogger (runCalls w name calls) name).handlers ≤ 1 ∧
    (∀ d l, (lookupLogger (runCalls w name calls) name).handlers ≠ [] →
      (lookupLogger (setup_logger (runCalls w name calls) d name l).1 name).handlers
        = (lookupLogger (runCalls w name calls) name).handlers) := by
  induction calls generalizing w with
  | nil =>
      exact ⟨fun d l => snd_setup_eq_lookup w d name l, hf, hc,
        fun d l h => setup_logger_preserves_existing_sinks w d name l h⟩
  | cons c rest ih =>
      obtain ⟨d0, l0⟩ := c
      have hstep := counts_setupEntry (lookupLogger w name) d0 l0 hf hc
      have hf1 : countFileSinks
          (lookupLogger (setup_logger w d0 name l0).1 name).handlers ≤ 1 := by
        rw [lookupLogger_setup]; exact hstep.1
      have hc1 : countConsoleSinks
          (lookupLogger (setup_logger w d0 name l0).1 name).handlers ≤ 1 := by
        rw [lookupLogger_setup]; exact hstep.2
      simpa [runCalls] using ih (setup_logger w d0 name l0).1 hf1 hc1

/-- Witness for C1: two calls with the same name on an empty world
leave at most one sink of each type. -/
theorem setup_logger_idempotent_sinks_witness :
    countFileSinks
        (lookupLogger
          (runCalls ⟨[], [], [], []⟩ "app"
            [(⟨2024, 5, 7⟩, 10), (⟨2024, 5, 8⟩, 40)]) "app").handlers ≤ 1 ∧
    countConsoleSinks
        (lookupLogger
          (runCalls ⟨[], [], [], []⟩ "app"
            [(⟨2024, 5, 7⟩, 10), (⟨2024, 5, 8⟩, 40)]) "app").handlers ≤ 1 :=
  ⟨(setup_logger_idempotent_sinks ⟨[], [], [], []⟩ "app"
      [(⟨2024, 5, 7⟩, 10), (⟨2024, 5, 8⟩, 40)] (by decide) (by decide)).2.1,
   (setup_logger_idempotent_sinks ⟨[], [], [], []⟩ "app"
      [(⟨2024, 5, 7⟩, 10), (⟨2024, 5, 8⟩, 40)] (by decide) (by decide)).2.2.1⟩

/-- C4: on a logger freshly configured by `setup_logger`, a record made
by one of the severity methods (so `DEBUG ≤ levelno`) whose level
passes the file sink's threshold appends exactly the one line
`<timestamp> - <name> - <level> - <message>` plus a trailing newline to
the day's file, leaving the file's prior contents as a prefix and every
other file untouched. -/
theorem log_call_appends_one_line (w : World) (d : Date) (n : String)
    (l : Nat) (r : LogRecord) (console : String)
    (hempty : (lookupLogger w n).handlers = [])
    (hname : r.name = n)
    (hlvl : l ≤ r.levelno) (hdbg : DEBUG ≤ r.levelno) :
    lookupFile
        (logCall (setup_logger w d n l).2 r
          (setup_logger w d n l).1.files console).1 (logFilename d)
      = some ((lookupFile (setup_logger w d n l).1.files (logFilename d)).getD ""
          ++ (asctime r.created ++ " - " ++ n ++ " - " ++ r.levelname
                ++ " - " ++ r.msg ++ "\n")) ∧
    (∀ q, q ≠ logFilename d →
      lookupFile
          (logCall (setup_logger w d n l).2 r
            (setup_logger w d n l).1.files console).1 q
        = lookupFile (setup_logger w d n l).1.files q) := by
  have hst : (setup_logger w d n l).2 =
      ⟨DEBUG, [⟨Sink.file (logFilename d) "a" "utf-8", l, Fmt.plain⟩,
               ⟨Sink.console, l, Fmt.color⟩]⟩ := by
    rw [setup_logger_eq]; unfold setupEntry; simp [hempty]
  have hrun : (logCall (setup_logger w d n l).2 r
      (setup_logger w d n l).1.files console).1
        = appendFile (setup_logger w d n l).1.files (logFilename d)
            (plainFormat r ++ "\n") := by
    rw [hst]
    simp [logCall, callHandlers, handleOne, renderWith, hdbg, hlvl]
  rw [hrun]
  constructor
  · rw [lookupFile_appendFile_self]
    simp [plainFormat, hname, String.append_assoc]
  · intro q hq
    exact lookupFile_appendFile_other _ _ _ _ hq

/-- Witness for C4: a concrete INFO record on a fresh "app" logger. -/
theorem log_call_appends_one_line_witness :
    lookupFile
        (logCall (setup_logger ⟨[], [], [], []⟩ ⟨2024, 5, 7⟩ "app" 20).2
          ⟨⟨2024, 5, 7, 12, 0, 0⟩, "app", "INFO", 20, "boom"⟩
          (setup_logger ⟨[], [], [], []⟩ ⟨2024, 5, 7⟩ "app" 20).1.files "").1
        (logFilename ⟨2024, 5, 7⟩)
      = some ((lookupFile
            (setup_logger ⟨[], [], [], []⟩ ⟨2024, 5, 7⟩ "app" 20).1.files
            (logFilename ⟨2024, 5, 7⟩)).getD ""
          ++ (asctime ⟨2024, 5, 7, 12, 0, 0⟩ ++ " - " ++ "app" ++ " - " ++
                "INFO" ++ " - " ++ "boom" ++ "\n")) :=
  (log_call_appends_one_line ⟨[], [], [], []⟩ ⟨2024, 5, 7⟩ "app" 20
    ⟨⟨2024, 5, 7, 12, 0, 0⟩, "app", "INFO", 20, "boom"⟩ ""
    (by decide) rfl (by decide) (by decide)).1

/-! ### Decimal rendering lemmas, for the daily-file-path claim -/

lemma natDigitsAux_fuel : ∀ f1 n f2, n < f1 → n < f2 →
    natDigitsAux f1 n = natDigitsAux f2 n := by
  intro f1
  induction f1 with
  | zero => intro n f2 h1 _; omega
  | succ k ih =>
      intro n f2 h1 h2
      cases f2 with
      | zero => omega
      | succ m =>
          by_cases h10 : n < 10
          · simp [natDigitsAux, h10]
          · have hd1 : n / 10 < k := by omega
            have hd2 : n / 10 < m := by omega
            simp [natDigitsAux, h10, ih (n / 10) m hd1 hd2]

lemma natDigits_eq (n : Nat) :
    natDigits n =
      if n < 10 then [digitChar n]
      else natDigits (n / 10) ++ [digitChar (n % 10)] := by
  by_cases h : n < 10
  · simp [natDigits, natDigitsAux, h]
  · have hfuel : natDigitsAux n (n / 10) = natDigitsAux (n / 10 + 1) (n / 10) :=
      natDigitsAux_fuel n (n / 10) (n / 10 + 1) (by omega) (by omega)
    simp [natDigits, natDigitsAux, h, hfuel]

lemma digitChar_inj : ∀ a < 10, ∀ b < 10, digitChar a = digitChar b → a = b := by
  decide

lemma natDigits_ne_nil (n : Nat) : natDigits n ≠ [] := by
  rw [natDigits_eq]
  by_cases h : n < 10 <;> simp [h]

lemma natDigits_lt10 {n : Nat} (h : n < 10) : natDigits n = [digitChar n] := by
  rw [natDigits_eq]; simp [h]

lemma natDigits_two {n : Nat} (h1 : 10 ≤ n) (h2 : n < 100) :
    natDigits n = [digitChar (n / 10), digitChar (n % 10)] := by
  rw [natDigits_eq]
  have h3 : ¬n < 10 := by omega
  have h4 : n / 10 < 10 := by omega
  simp [h3, natDigits_lt10 h4]

lemma natDigits_length_two {n : Nat} (h1 : 10 ≤ n) (h2 : n < 100) :
    (natDigits n).length = 2 := by
  rw [natDigits_two h1 h2]; rfl

lemma natDigits_length_three {n : Nat} (h1 : 100 ≤ n) (h2 : n < 1000) :
    (natDigits n).length = 3 := by
  rw [natDigits_eq]
  have h3 : ¬n < 10 := by omega
  simp [h3, natDigits_length_two (show 10 ≤ n / 10 by omega)
    (show n / 10 < 100 by omega)]

lemma natDigits_length_four {n : Nat} (h1 : 1000 ≤ n) (h2 : n < 10000) :
    (natDigits n).length = 4 := by
  rw [natDigits_eq]
  have h3 : ¬n < 10 := by omega
  simp [h3, natDigits_length_three (show 100 ≤ n / 10 by omega)
    (show n / 10 < 1000 by omega)]

lemma natDigits_inj : ∀ a b : Nat, natDigits a = natDigits b → a = b := by
  intro a
  induction a using Nat.strong_induction_on with
  | _ a ih =>
    intro b h
    by_cases ha : a < 10 <;> by_cases hb : b < 10
    · rw [natDigits_lt10 ha, natDigits_lt10 hb] at h
      exact digitChar_inj a ha b hb (by simpa using h)
    · exfalso
      rw [natDigits_lt10 ha, natDigits_eq b] at h
      simp [hb] at h
      cases hE : natDigits (b / 10) with
      | nil => exact natDigits_ne_nil (b / 10) hE
      | cons x xs =>
          rw [hE] at h
          have := congrArg List.length h
          simp only [List.length_cons, List.length_append, List.length_nil]
            at this
          omega
    · exfalso
      rw [natDigits_lt10 hb, natDigits_eq a] at h
      simp [ha] at h
      cases hE : natDigits (a / 10) with
      | nil => exact natDigits_ne_nil (a / 10) hE
      | cons x xs =>
          rw [hE] at h
          have := congrArg List.length h
          simp only [List.length_cons, List.length_append, List.length_nil]
            at this
          omega
    · rw [natDigits_eq a, natDigits_eq b] at h
      simp [ha, hb] at h
      obtain ⟨h1, h2⟩ := List.append_inj' h (by rfl)
      have hdiv : a / 10 = b / 10 :=
        ih (a / 10) (by omega) (b / 10) h1
      have hmod : a % 10 = b % 10 :=
        digitChar_inj (a % 10) (by omega) (b % 10) (by omega) (by simpa using h2)
      omega

lemma pad2_data (n : Nat) :
    (pad2 n).data = if n < 10 then '0' :: natDigits n else natDigits n := by
  unfold pad2
  by_cases h : n < 10 <;> simp [h]

lemma pad2_data_length {n : Nat} (h : n < 100) : (pad2 n).data.length = 2 := by
  rw [pad2_data]
  by_cases h10 : n < 10
  · simp [h10, natDigits_lt10 h10]
  · simp [h10, natDigits_length_two (by omega) h]

lemma pad2_data_inj {a b : Nat} (ha : a < 100) (hb : b < 100)
    (h : (pad2 a).data = (pad2 b).data) : a = b := by
  rw [pad2_data, pad2_data] at h
  by_cases h1 : a < 10 <;> by_cases h2 : b < 10
  · simp [h1, h2] at h
    exact natDigits_inj a b h
  · exfalso
    rw [natDigits_lt10 h1, natDigits_two (by omega) hb] at h
    simp [h1, h2] at h
    have hz : (0 : Nat) = b / 10 :=
      digitChar_inj 0 (by omega) (b / 10) (by omega) h.1
    omega
  · exfalso
    rw [natDigits_lt10 h2, natDigits_two (by omega) ha] at h
    simp [h1, h2] at h
    have hz : (0 : Nat) = a / 10 :=
      digitChar_inj 0 (by omega) (a / 10) (by omega) (by simpa using h.1.symm)
    omega
  · simp [h1, h2] at h
    exact natDigits_inj a b h

lemma logFilename_inj (d1 d2 : Date)
    (h1m : d1.month < 100) (h1d : d1.day < 100)
    (h2m : d2.month < 100) (h2d : d2.day < 100)
    (h : logFilename d1 = logFilename d2) : d1 = d2 := by
  have hdata := congrArg String.data h
  simp only [logFilename, String.data_append, List.append_assoc] at hdata
  have s1 := List.append_cancel_left hdata
  obtain ⟨hmon, s2⟩ :=
    List.append_inj s1 (by rw [pad2_data_length h1m, pad2_data_length h2m])
  have s3 := List.append_cancel_left s2
  obtain ⟨hday, s4⟩ :=
    List.append_inj s3 (by rw [pad2_data_length h1d, pad2_data_length h2d])
  have s5 := List.append_cancel_left s4
  have hyear := List.append_cancel_right s5
  have em : d1.month = d2.month := pad2_data_inj h1m h2m hmon
  have ed : d1.day = d2.day := pad2_data_inj h1d h2d hday
  have ey : d1.year = d2.year := natDigits_inj d1.year d2.year hyear
  cases d1; cases d2
  simp_all

/-- C7: the daily file path is `./logs/` followed by the zero-padded
two-digit month, `-`, the zero-padded two-digit day, `-`, the
four-digit year, and `.log`; distinct calendar dates give distinct
paths. -/
theorem logFilename_format_injective (d : Date)
    (hm : d.month ≤ 12) (hd : d.day ≤ 31)
    (hy1 : 1000 ≤ d.year) (hy2 : d.year ≤ 9999) :
    logFilename d = "./logs/" ++ pad2 d.month ++ "-" ++ pad2 d.day ++ "-" ++
        natStr d.year ++ ".log" ∧
    (pad2 d.month).length = 2 ∧ (pad2 d.day).length = 2 ∧
    (natStr d.year).length = 4 ∧
    ∀ d2 : Date, d2.month ≤ 12 → d2.day ≤ 31 → d ≠ d2 →
      logFilename d ≠ logFilename d2 := by
  refine ⟨rfl, ?_, ?_, ?_, ?_⟩
  · exact pad2_data_length (by omega)
  · exact pad2_data_length (by omega)
  · exact natDigits_length_four hy1 (by omega)
  · intro d2 hm2 hd2 hne hcontra
    exact hne (logFilename_inj d d2 (by omega) (by omega) (by omega) (by omega)
      hcontra)

/-- Witness for C7 at the concrete dates 2024-05-07 and 2024-05-08. -/
theorem logFilename_format_injective_witness :
    (natStr 2024).length = 4 ∧
    logFilename ⟨2024, 5, 7⟩ ≠ logFilename ⟨2024, 5, 8⟩ :=
  ⟨(logFilename_format_injective ⟨2024, 5, 7⟩
      (by decide) (by decide) (by decide) (by decide)).2.2.2.1,
   (logFilename_format_injective ⟨2024, 5, 7⟩
      (by decide) (by decide) (by decide) (by decide)).2.2.2.2
    ⟨2024, 5, 8⟩ (by decide) (by decide) (by decide)⟩

/-- Witness for C8's amended statement at a concrete second call. -/
theorem setup_logger_opens_handle_every_call_witness :
    ((setup_logger (setup_logger ⟨[], [], [], []⟩ ⟨2024, 5, 7⟩ "app" 10).1
        ⟨2024, 5, 7⟩ "app" 10).1).openEvents
      = ((setup_logger ⟨[], [], [], []⟩ ⟨2024, 5, 7⟩ "app" 10).1).openEvents
          ++ [logFilename ⟨2024, 5, 7⟩] ∧
    (lookupLogger
        (setup_logger (setup_logger ⟨[], [], [], []⟩ ⟨2024, 5, 7⟩ "app" 10).1
          ⟨2024, 5, 7⟩ "app" 10).1 "app").handlers
      = (lookupLogger
          (setup_logger ⟨[], [], [], []⟩ ⟨2024, 5, 7⟩ "app" 10).1
          "app").handlers :=
  ⟨(setup_logger_opens_handle_every_call
      (setup_logger ⟨[], [], [], []⟩ ⟨2024, 5, 7⟩ "app" 10).1
      ⟨2024, 5, 7⟩ "app" 10).1,
   (setup_logger_opens_handle_every_call
      (setup_logger ⟨[], [], [], []⟩ ⟨2024, 5, 7⟩ "app" 10).1
      ⟨2024, 5, 7⟩ "app" 10).2 (by decide)⟩

end SetLogger
